import Mathlib

/-!
Shallow embedding of `src/sdl2/messagebox.rs` (rust-sdl2 message-box binding).

Text is modelled as a list of bytes (`List Nat`); `CString.new` mirrors
`std::ffi::CString::new`, failing on an interior null byte and otherwise
appending the zero terminator.  The native layer (`SDL_ShowMessageBox`,
`SDL_ShowSimpleMessageBox`, `get_error`) is an oracle given as a
`NativeResponse` input: the status code the call returns, the value the
output parameter `button_id` holds afterwards, and the current global error
string.  Each entry point returns both its Rust result (with an explicit
`panicked` outcome standing for a Rust panic, e.g. `Option::unwrap` on
`None`) and an `Option` recording whether the foreign call was made and
exactly which marshalled data was passed to it.
-/

namespace Messagebox

/-- NulError mirrors `std::ffi::NulError`: the position of the first interior
null byte and the bytes that were being converted. -/
structure NulError where
  pos : Nat
  bytes : List Nat
deriving DecidableEq, Repr

/-- CString.new mirrors `CString::new`: error on an interior null byte,
otherwise the input bytes with a single zero terminator appended. -/
def CString.new (s : List Nat) : Except NulError (List Nat) :=
  if 0 ∈ s then Except.error ⟨s.indexOf 0, s⟩ else Except.ok (s ++ [0])

/-- ButtonData mirrors the Rust struct: bit flags, caller-chosen id, text. -/
structure ButtonData where
  flags : Nat
  button_id : Int
  text : List Nat
deriving DecidableEq, Repr

/-- ClickedButton mirrors the Rust enum; `CustomButton` carries the matched
input `ButtonData` (the Rust reference, by value). -/
inductive ClickedButton where
  | CloseButton : ClickedButton
  | CustomButton : ButtonData → ClickedButton
deriving DecidableEq, Repr

/-- MessageBoxColorScheme mirrors the Rust struct of five `(u8,u8,u8)` triples. -/
structure MessageBoxColorScheme where
  background : Nat × Nat × Nat
  text : Nat × Nat × Nat
  button_border : Nat × Nat × Nat
  button_background : Nat × Nat × Nat
  button_selected : Nat × Nat × Nat
deriving DecidableEq, Repr

/-- SDL_MessageBoxColor mirrors the foreign color record `{r, g, b}`. -/
structure SDL_MessageBoxColor where
  r : Nat
  g : Nat
  b : Nat
deriving DecidableEq, Repr

/-- to_message_box_color mirrors the local helper in the `From` impl. -/
def to_message_box_color (t : Nat × Nat × Nat) : SDL_MessageBoxColor :=
  { r := t.1, g := t.2.1, b := t.2.2 }

/-- from_MessageBoxColorScheme embeds
`impl From<MessageBoxColorScheme> for [SDL_MessageBoxColor; 5]`. -/
def from_MessageBoxColorScheme (scheme : MessageBoxColorScheme) :
    List SDL_MessageBoxColor :=
  [to_message_box_color scheme.background,
   to_message_box_color scheme.text,
   to_message_box_color scheme.button_border,
   to_message_box_color scheme.button_background,
   to_message_box_color scheme.button_selected]

/-- ShowMessageError mirrors the Rust error enum. -/
inductive ShowMessageError where
  | InvalidTitle : NulError → ShowMessageError
  | InvalidMessage : NulError → ShowMessageError
  | InvalidButton : NulError → Int → ShowMessageError
  | SdlError : String → ShowMessageError
deriving DecidableEq, Repr

/-- Outcome of a Rust function call: `Ok`, `Err`, or a panic
(`Option::unwrap` on `None`). -/
inductive Outcome (α : Type) where
  | ok : α → Outcome α
  | err : ShowMessageError → Outcome α
  | panicked : Outcome α
deriving DecidableEq, Repr

/-- SDL_MessageBoxButtonData mirrors the foreign per-button record; `text`
holds the encoded null-terminated buffer the record points into. -/
structure SDL_MessageBoxButtonData where
  flags : Nat
  buttonid : Int
  text : List Nat
deriving DecidableEq, Repr

/-- NativeResponse is the oracle for the foreign layer: the status code the
native call returns, the output-parameter button id, and the global error
string `get_error` would return. -/
structure NativeResponse where
  status : Int
  button_id : Int
  error : String
deriving DecidableEq, Repr

/-- SimpleForeignCall records the data marshalled into
`SDL_ShowSimpleMessageBox` when that call is made. -/
structure SimpleForeignCall where
  flags : Nat
  title : List Nat
  message : List Nat
  window : Nat
deriving DecidableEq, Repr

/-- ForeignCall records the data marshalled into `SDL_ShowMessageBox`
(the `SDL_MessageBoxData` contents) when that call is made. -/
structure ForeignCall where
  flags : Nat
  window : Nat
  title : List Nat
  message : List Nat
  buttons : List SDL_MessageBoxButtonData
  color_scheme : Option (List SDL_MessageBoxColor)
deriving DecidableEq, Repr

/-- show_simple_message_box embeds the Rust function of the same name.
The window handle is an opaque `Option Nat` (raw pointer; `none` maps to the
null pointer).  The second component records the foreign call, `none` when
no foreign call was made. -/
def show_simple_message_box (flags : Nat) (title message : List Nat)
    (window : Option Nat) (native : NativeResponse) :
    Outcome Unit × Option SimpleForeignCall :=
  match CString.new title with
  | Except.error e => (Outcome.err (ShowMessageError.InvalidTitle e), none)
  | Except.ok t =>
    match CString.new message with
    | Except.error e => (Outcome.err (ShowMessageError.InvalidMessage e), none)
    | Except.ok m =>
      let call : SimpleForeignCall :=
        { flags := flags, title := t, message := m, window := window.getD 0 }
      if native.status = 0 then
        (Outcome.ok (), some call)
      else
        (Outcome.err (ShowMessageError.SdlError native.error), some call)

/-- encode_button_texts embeds
`buttons.iter().map(|b| CString::new(b.text).map_err(|e|(e,b.button_id))).collect()`:
the first button whose text has an interior null aborts with that button's id. -/
def encode_button_texts : List ButtonData → Except (NulError × Int) (List (List Nat))
  | [] => Except.ok []
  | b :: rest =>
    match CString.new b.text with
    | Except.error e => Except.error (e, b.button_id)
    | Except.ok t =>
      match encode_button_texts rest with
      | Except.error e => Except.error e
      | Except.ok ts => Except.ok (t :: ts)

/-- show_message_box embeds the Rust function of the same name: encode title,
message and button texts, assemble the foreign records, make the (oracle)
native call, and decode status/output id.  `Outcome.panicked` is the
`button.unwrap()` panic when the reported id matches no input button. -/
def show_message_box (flags : Nat) (buttons : List ButtonData)
    (title message : List Nat) (window : Option Nat)
    (scheme : Option MessageBoxColorScheme) (native : NativeResponse) :
    Outcome ClickedButton × Option ForeignCall :=
  match CString.new title with
  | Except.error e => (Outcome.err (ShowMessageError.InvalidTitle e), none)
  | Except.ok t =>
    match CString.new message with
    | Except.error e => (Outcome.err (ShowMessageError.InvalidMessage e), none)
    | Except.ok m =>
      match encode_button_texts buttons with
      | Except.error e =>
        (Outcome.err (ShowMessageError.InvalidButton e.1 e.2), none)
      | Except.ok button_texts =>
        let raw_buttons : List SDL_MessageBoxButtonData :=
          (buttons.zip button_texts).map (fun p =>
            { flags := p.1.flags, buttonid := p.1.button_id, text := p.2 })
        let call : ForeignCall :=
          { flags := flags, window := window.getD 0, title := t, message := m,
            buttons := raw_buttons,
            color_scheme := scheme.map from_MessageBoxColorScheme }
        if native.status = 0 then
          if native.button_id = -1 then
            (Outcome.ok ClickedButton.CloseButton, some call)
          else
            match buttons.find? (fun b => b.button_id == native.button_id) with
            | some b => (Outcome.ok (ClickedButton.CustomButton b), some call)
            | none => (Outcome.panicked, some call)
        else
          (Outcome.err (ShowMessageError.SdlError native.error), some call)

/-- the_call abbreviates the `SDL_MessageBoxData` contents marshalled by
`show_message_box` once every encoding step succeeded. -/
def the_call (flags : Nat) (buttons : List ButtonData) (title message : List Nat)
    (window : Option Nat) (scheme : Option MessageBoxColorScheme) : ForeignCall :=
  { flags := flags, window := window.getD 0, title := title ++ [0],
    message := message ++ [0],
    buttons := (buttons.zip (buttons.map (fun b => b.text ++ [0]))).map (fun p =>
      { flags := p.1.flags, buttonid := p.1.button_id, text := p.2 }),
    color_scheme := scheme.map from_MessageBoxColorScheme }

/-! ### Helper lemmas about the encoding steps -/

/-- Encoding a null-free byte string succeeds and appends the terminator. -/
theorem CString.new_of_not_mem (s : List Nat) (h : 0 ∉ s) :
    CString.new s = Except.ok (s ++ [0]) := by
  simp [CString.new, h]

/-- Encoding a byte string with an interior null fails, carrying those bytes. -/
theorem CString.new_of_mem (s : List Nat) (h : 0 ∈ s) :
    CString.new s = Except.error ⟨s.indexOf 0, s⟩ := by
  simp [CString.new, h]

/-- Button-text encoding succeeds on null-free texts, terminator appended each. -/
theorem encode_button_texts_ok (buttons : List ButtonData)
    (h : ∀ b ∈ buttons, 0 ∉ b.text) :
    encode_button_texts buttons =
      Except.ok (buttons.map (fun b => b.text ++ [0])) := by
  induction buttons with
  | nil => rfl
  | cons b rest ih =>
    have hb : 0 ∉ b.text := h b (List.mem_cons_self b rest)
    have hrest : ∀ x ∈ rest, 0 ∉ x.text := fun x hx => h x (List.mem_cons_of_mem b hx)
    simp [encode_button_texts, CString.new_of_not_mem b.text hb, ih hrest]

/-- Button-text encoding stops at the first button with an interior null,
reporting that button's id, regardless of the buttons after it. -/
theorem encode_button_texts_err (pre : List ButtonData) (bad : ButtonData)
    (rest : List ButtonData) (hpre : ∀ b ∈ pre, 0 ∉ b.text)
    (hbad : 0 ∈ bad.text) :
    encode_button_texts (pre ++ bad :: rest) =
      Except.error (⟨bad.text.indexOf 0, bad.text⟩, bad.button_id) := by
  induction pre with
  | nil => simp [encode_button_texts, CString.new_of_mem bad.text hbad]
  | cons p pre ih =>
    have hp : 0 ∉ p.text := hpre p (List.mem_cons_self p pre)
    have hpre2 : ∀ b ∈ pre, 0 ∉ b.text := fun b hb => hpre b (List.mem_cons_of_mem p hb)
    simp [encode_button_texts, CString.new_of_not_mem p.text hp, ih hpre2]

/-- Under successful encoding, `show_message_box` reduces to the decode step
applied to the oracle, paired with the marshalled call. -/
theorem show_message_box_eq_of_encodes (flags : Nat) (buttons : List ButtonData)
    (title message : List Nat) (window : Option Nat)
    (scheme : Option MessageBoxColorScheme) (native : NativeResponse)
    (ht : 0 ∉ title) (hm : 0 ∉ message) (hb : ∀ b ∈ buttons, 0 ∉ b.text) :
    show_message_box flags buttons title message window scheme native =
      (if native.status = 0 then
        if native.button_id = -1 then
          (Outcome.ok ClickedButton.CloseButton,
           some (the_call flags buttons title message window scheme))
        else
          match buttons.find? (fun b => b.button_id == native.button_id) with
          | some b => (Outcome.ok (ClickedButton.CustomButton b),
                       some (the_call flags buttons title message window scheme))
          | none => (Outcome.panicked,
                     some (the_call flags buttons title message window scheme))
      else
        (Outcome.err (ShowMessageError.SdlError native.error),
         some (the_call flags buttons title message window scheme))) := by
  unfold show_message_box
  rw [CString.new_of_not_mem title ht, CString.new_of_not_mem message hm,
    encode_button_texts_ok buttons hb]
  rfl

/-- A scan over `pre ++ b :: rest` where nothing in `pre` matches and `b`
matches finds `b`, whatever `rest` holds. -/
theorem find_first_match (pre : List ButtonData) (b : ButtonData)
    (rest : List ButtonData) (id : Int) (hpre : ∀ p ∈ pre, p.button_id ≠ id)
    (hb : b.button_id = id) :
    (pre ++ b :: rest).find? (fun x => x.button_id == id) = some b := by
  induction pre with
  | nil =>
    simp only [List.nil_append]
    exact List.find?_cons_of_pos rest (by simp [hb])
  | cons p pre ih =>
    have hp : ¬((fun x : ButtonData => x.button_id == id) p = true) := by
      simp [hpre p (List.mem_cons_self p pre)]
    have hpre2 : ∀ x ∈ pre, x.button_id ≠ id := fun x hx =>
      hpre x (List.mem_cons_of_mem p hx)
    rw [List.cons_append,
      List.find?_cons_of_neg (p := fun x : ButtonData => x.button_id == id) _ hp]
    exact ih hpre2

/-- Under successful encoding the foreign call is always made, with the
marshalled data `the_call`, whatever the oracle answers. -/
theorem show_message_box_call_of_encodes (flags : Nat) (buttons : List ButtonData)
    (title message : List Nat) (window : Option Nat)
    (scheme : Option MessageBoxColorScheme) (native : NativeResponse)
    (ht : 0 ∉ title) (hm : 0 ∉ message) (hb : ∀ b ∈ buttons, 0 ∉ b.text) :
    (show_message_box flags buttons title message window scheme native).2 =
      some (the_call flags buttons title message window scheme) := by
  rw [show_message_box_eq_of_encodes flags buttons title message window scheme
    native ht hm hb]
  by_cases hs : native.status = 0
  · by_cases hid : native.button_id = -1
    · simp [hs, hid]
    · cases hfind : buttons.find? (fun b => b.button_id == native.button_id) with
      | none => simp [hs, hid, hfind]
      | some b => simp [hs, hid, hfind]
  · simp [hs]

/-- Projecting the text buffers out of the marshalled button records gives
back exactly the per-button encoded texts. -/
theorem the_call_button_texts (buttons : List ButtonData) :
    ((buttons.zip (buttons.map (fun b => b.text ++ [0]))).map (fun p =>
      ({ flags := p.1.flags, buttonid := p.1.button_id, text := p.2 } :
        SDL_MessageBoxButtonData))).map SDL_MessageBoxButtonData.text =
      buttons.map (fun b => b.text ++ [0]) := by
  induction buttons with
  | nil => rfl
  | cons b rest ih => simpa using ih

/-! ### Claim theorems -/

/-- C1: on native status zero, a reported button id of `-1` decodes to
`ClickedButton::CloseButton`, and any other reported id that some input
button carries decodes to `ClickedButton::CustomButton` referencing an input
button whose `button_id` equals the reported id, found by the linear scan. -/
theorem C1_success_decode (flags : Nat) (buttons : List ButtonData)
    (title message : List Nat) (window : Option Nat)
    (scheme : Option MessageBoxColorScheme) (native : NativeResponse)
    (ht : 0 ∉ title) (hm : 0 ∉ message) (hb : ∀ b ∈ buttons, 0 ∉ b.text)
    (hs : native.status = 0) :
    (native.button_id = -1 →
      (show_message_box flags buttons title message window scheme native).1 =
        Outcome.ok ClickedButton.CloseButton) ∧
    (native.button_id ≠ -1 →
      (∃ b ∈ buttons, b.button_id = native.button_id) →
      ∃ c, buttons.find? (fun x => x.button_id == native.button_id) = some c ∧
        c ∈ buttons ∧ c.button_id = native.button_id ∧
        (show_message_box flags buttons title message window scheme native).1 =
          Outcome.ok (ClickedButton.CustomButton c)) := by
  rw [show_message_box_eq_of_encodes flags buttons title message window scheme
    native ht hm hb]
  constructor
  · intro hid
    simp [hs, hid]
  · intro hid hex
    obtain ⟨b0, hb0mem, hb0id⟩ := hex
    have hsome : (buttons.find? (fun x => x.button_id == native.button_id)).isSome := by
      rw [List.find?_isSome]
      exact ⟨b0, hb0mem, by simp [hb0id]⟩
    obtain ⟨c, hc⟩ := Option.isSome_iff_exists.mp hsome
    have hcmem : c ∈ buttons := List.mem_of_find?_eq_some hc
    have hcid : c.button_id = native.button_id := by
      have := List.find?_some hc
      simpa using this
    exact ⟨c, hc, hcmem, hcid, by simp [hs, hid, hc]⟩

/-- C1 witness: with buttons of ids 10 and 20, a reported id of 20 decodes to
the second input button. -/
theorem C1_success_decode_witness :
    ∃ c, ([⟨0, 10, [97]⟩, ⟨0, 20, [98]⟩] : List ButtonData).find?
        (fun x => x.button_id == (20 : Int)) = some c ∧
      c ∈ ([⟨0, 10, [97]⟩, ⟨0, 20, [98]⟩] : List ButtonData) ∧
      c.button_id = (20 : Int) ∧
      (show_message_box 0 [⟨0, 10, [97]⟩, ⟨0, 20, [98]⟩] [116] [109] none none
        ⟨0, 20, ""⟩).1 = Outcome.ok (ClickedButton.CustomButton c) :=
  (C1_success_decode 0 [⟨0, 10, [97]⟩, ⟨0, 20, [98]⟩] [116] [109] none none
      ⟨0, 20, ""⟩ (by decide) (by decide) (by decide) rfl).2
    (by decide) ⟨⟨0, 20, [98]⟩, by decide, rfl⟩

/-- C5: the color-scheme conversion is total and positional, mapping the five
triples in the fixed order [background, text, button_border,
button_background, button_selected]; on the spec example it yields exactly
the expected 5-slot array. -/
theorem C5_color_scheme_conversion :
    (∀ scheme : MessageBoxColorScheme,
      (from_MessageBoxColorScheme scheme).map (fun c => (c.r, c.g, c.b)) =
        [scheme.background, scheme.text, scheme.button_border,
         scheme.button_background, scheme.button_selected] ∧
      (from_MessageBoxColorScheme scheme).length = 5) ∧
    from_MessageBoxColorScheme
        ⟨(1, 2, 3), (4, 5, 6), (7, 8, 9), (10, 11, 12), (13, 14, 15)⟩ =
      [⟨1, 2, 3⟩, ⟨4, 5, 6⟩, ⟨7, 8, 9⟩, ⟨10, 11, 12⟩, ⟨13, 14, 15⟩] := by
  refine ⟨fun s => ⟨?_, ?_⟩, rfl⟩
  · simp [from_MessageBoxColorScheme, to_message_box_color]
  · simp [from_MessageBoxColorScheme]

/-- C7: when an input button carries id `-1` and the native layer reports
`-1` on success, the result is `CloseButton`, never that custom button: the
`-1` check precedes the lookup and caller ids are not validated. -/
theorem C7_minus_one_priority (flags : Nat) (buttons : List ButtonData)
    (title message : List Nat) (window : Option Nat)
    (scheme : Option MessageBoxColorScheme) (native : NativeResponse)
    (ht : 0 ∉ title) (hm : 0 ∉ message) (hb : ∀ b ∈ buttons, 0 ∉ b.text)
    (hassigned : ∃ b ∈ buttons, b.button_id = -1)
    (hs : native.status = 0) (hid : native.button_id = -1) :
    (show_message_box flags buttons title message window scheme native).1 =
      Outcome.ok ClickedButton.CloseButton := by
  rw [show_message_box_eq_of_encodes flags buttons title message window scheme
    native ht hm hb]
  simp [hs, hid]

/-- C7 witness: a real button with id -1 is misreported as the close button. -/
theorem C7_minus_one_priority_witness :
    (show_message_box 0 [⟨0, -1, [120]⟩] [116] [109] none none
      ⟨0, -1, ""⟩).1 = Outcome.ok ClickedButton.CloseButton :=
  C7_minus_one_priority 0 [⟨0, -1, [120]⟩] [116] [109] none none ⟨0, -1, ""⟩
    (by decide) (by decide) (by decide) ⟨⟨0, -1, [120]⟩, by decide, rfl⟩ rfl rfl

/-- C9: under duplicate button ids, the linear scan is deterministic
first-match: with buttons `pre ++ b :: rest` where nothing in `pre` carries
the reported id and `b` does, the result references `b`, whatever `rest`
holds (including further buttons with the same id). -/
theorem C9_duplicate_first_match (flags : Nat) (pre : List ButtonData)
    (b : ButtonData) (rest : List ButtonData) (title message : List Nat)
    (window : Option Nat) (scheme : Option MessageBoxColorScheme)
    (native : NativeResponse) (ht : 0 ∉ title) (hm : 0 ∉ message)
    (hb : ∀ x ∈ pre ++ b :: rest, 0 ∉ x.text) (hs : native.status = 0)
    (hid : native.button_id = b.button_id) (hne : b.button_id ≠ -1)
    (hpre : ∀ p ∈ pre, p.button_id ≠ b.button_id) :
    (show_message_box flags (pre ++ b :: rest) title message window scheme
        native).1 = Outcome.ok (ClickedButton.CustomButton b) := by
  rw [show_message_box_eq_of_encodes flags (pre ++ b :: rest) title message
    window scheme native ht hm hb]
  have hfind := find_first_match pre b rest b.button_id hpre rfl
  simp [hs, hid, hne, hfind]

/-- C9 witness: two buttons share id 7 and differ in text; the first one in
input order is returned. -/
theorem C9_duplicate_first_match_witness :
    (show_message_box 0 [⟨0, 7, [97]⟩, ⟨0, 7, [98]⟩] [116] [109] none none
      ⟨0, 7, ""⟩).1 = Outcome.ok (ClickedButton.CustomButton ⟨0, 7, [97]⟩) :=
  C9_duplicate_first_match 0 [] ⟨0, 7, [97]⟩ [⟨0, 7, [98]⟩] [116] [109] none
    none ⟨0, 7, ""⟩ (by decide) (by decide) (by decide) rfl rfl (by decide)
    (by decide)

/-- C2: an interior null byte in the title yields `InvalidTitle` with no
foreign call, in both entry points; with a null-free title, a null byte in
the message yields `InvalidMessage` with no foreign call; null-free text
always encodes successfully. -/
theorem C2_null_byte_validation (flags : Nat) (buttons : List ButtonData)
    (title message : List Nat) (window : Option Nat)
    (scheme : Option MessageBoxColorScheme) (native : NativeResponse) :
    (0 ∈ title →
      (∃ e, show_simple_message_box flags title message window native =
        (Outcome.err (ShowMessageError.InvalidTitle e), none)) ∧
      (∃ e, show_message_box flags buttons title message window scheme native =
        (Outcome.err (ShowMessageError.InvalidTitle e), none))) ∧
    (0 ∉ title → 0 ∈ message →
      (∃ e, show_simple_message_box flags title message window native =
        (Outcome.err (ShowMessageError.InvalidMessage e), none)) ∧
      (∃ e, show_message_box flags buttons title message window scheme native =
        (Outcome.err (ShowMessageError.InvalidMessage e), none))) ∧
    (0 ∉ title → CString.new title = Except.ok (title ++ [0])) ∧
    (0 ∉ message → CString.new message = Except.ok (message ++ [0])) := by
  refine ⟨fun h1 => ⟨⟨⟨title.indexOf 0, title⟩, ?_⟩,
      ⟨⟨title.indexOf 0, title⟩, ?_⟩⟩,
    fun h1 h2 => ⟨⟨⟨message.indexOf 0, message⟩, ?_⟩,
      ⟨⟨message.indexOf 0, message⟩, ?_⟩⟩,
    fun h1 => CString.new_of_not_mem title h1,
    fun h2 => CString.new_of_not_mem message h2⟩
  · unfold show_simple_message_box
    rw [CString.new_of_mem title h1]
  · unfold show_message_box
    rw [CString.new_of_mem title h1]
  · unfold show_simple_message_box
    rw [CString.new_of_not_mem title h1, CString.new_of_mem message h2]
  · unfold show_message_box
    rw [CString.new_of_not_mem title h1, CString.new_of_mem message h2]

/-- C2 witness: a null byte in the title of the simple box, and one in the
message of the customizable box, yield the corresponding errors without a
foreign call. -/
theorem C2_null_byte_validation_witness :
    (∃ e, show_simple_message_box 0 [0] [109] none ⟨0, 0, ""⟩ =
      (Outcome.err (ShowMessageError.InvalidTitle e), none)) ∧
    (∃ e, show_message_box 0 [] [116] [0] none none ⟨0, 0, ""⟩ =
      (Outcome.err (ShowMessageError.InvalidMessage e), none)) :=
  ⟨((C2_null_byte_validation 0 [] [0] [109] none none ⟨0, 0, ""⟩).1
      (by decide)).1,
   ((C2_null_byte_validation 0 [] [116] [0] none none ⟨0, 0, ""⟩).2.1
      (by decide) (by decide)).2⟩

/-- C3: after the title and message encode, the first button whose text has
an interior null aborts the whole call with `InvalidButton` carrying that
button's id; buttons after it are arbitrary (not validated), no foreign call
is made, and earlier buttons leave no observable effect. -/
theorem C3_first_invalid_button (flags : Nat) (pre : List ButtonData)
    (bad : ButtonData) (rest : List ButtonData) (title message : List Nat)
    (window : Option Nat) (scheme : Option MessageBoxColorScheme)
    (native : NativeResponse) (ht : 0 ∉ title) (hm : 0 ∉ message)
    (hpre : ∀ b ∈ pre, 0 ∉ b.text) (hbad : 0 ∈ bad.text) :
    ∃ e : NulError, e.bytes = bad.text ∧
      show_message_box flags (pre ++ bad :: rest) title message window scheme
          native =
        (Outcome.err (ShowMessageError.InvalidButton e bad.button_id), none) := by
  refine ⟨⟨bad.text.indexOf 0, bad.text⟩, rfl, ?_⟩
  unfold show_message_box
  rw [CString.new_of_not_mem title ht, CString.new_of_not_mem message hm,
    encode_button_texts_err pre bad rest hpre hbad]

/-- C3 witness: with buttons [{id 5, "Ok"}, {id 7, "Bad\0Text"}], the call
fails with `InvalidButton` tagged with id 7 and no foreign call is made. -/
theorem C3_first_invalid_button_witness :
    ∃ e : NulError, e.bytes = [66, 97, 100, 0, 84, 101, 120, 116] ∧
      show_message_box 0
          [⟨0, 5, [79, 107]⟩, ⟨0, 7, [66, 97, 100, 0, 84, 101, 120, 116]⟩]
          [116] [109] none none ⟨0, 0, ""⟩ =
        (Outcome.err (ShowMessageError.InvalidButton e 7), none) :=
  C3_first_invalid_button 0 [⟨0, 5, [79, 107]⟩]
    ⟨0, 7, [66, 97, 100, 0, 84, 101, 120, 116]⟩ [] [116] [109] none none
    ⟨0, 0, ""⟩ (by decide) (by decide) (by decide) (by decide)

/-- C10: the title is validated before the message in both entry points:
when both contain an interior null byte the error is `InvalidTitle`, never
`InvalidMessage`. -/
theorem C10_title_checked_first (flags : Nat) (buttons : List ButtonData)
    (title message : List Nat) (window : Option Nat)
    (scheme : Option MessageBoxColorScheme) (native : NativeResponse)
    (ht : 0 ∈ title) (hm : 0 ∈ message) :
    (∃ e, (show_simple_message_box flags title message window native).1 =
      Outcome.err (ShowMessageError.InvalidTitle e)) ∧
    (∃ e, (show_message_box flags buttons title message window scheme
      native).1 = Outcome.err (ShowMessageError.InvalidTitle e)) ∧
    (∀ e, (show_simple_message_box flags title message window native).1 ≠
      Outcome.err (ShowMessageError.InvalidMessage e)) ∧
    (∀ e, (show_message_box flags buttons title message window scheme
      native).1 ≠ Outcome.err (ShowMessageError.InvalidMessage e)) := by
  have h1 : (show_simple_message_box flags title message window native).1 =
      Outcome.err (ShowMessageError.InvalidTitle ⟨title.indexOf 0, title⟩) := by
    unfold show_simple_message_box
    rw [CString.new_of_mem title ht]
  have h2 : (show_message_box flags buttons title message window scheme
      native).1 =
      Outcome.err (ShowMessageError.InvalidTitle ⟨title.indexOf 0, title⟩) := by
    unfold show_message_box
    rw [CString.new_of_mem title ht]
  refine ⟨⟨_, h1⟩, ⟨_, h2⟩, fun e he => ?_, fun e he => ?_⟩
  · rw [h1] at he
    simp at he
  · rw [h2] at he
    simp at he

/-- C10 witness: title and message both null-only; both entry points report
`InvalidTitle`. -/
theorem C10_title_checked_first_witness :
    (∃ e, (show_simple_message_box 0 [0] [0] none ⟨0, 0, ""⟩).1 =
      Outcome.err (ShowMessageError.InvalidTitle e)) ∧
    (∃ e, (show_message_box 0 [] [0] [0] none none ⟨0, 0, ""⟩).1 =
      Outcome.err (ShowMessageError.InvalidTitle e)) :=
  ⟨(C10_title_checked_first 0 [] [0] [0] none none ⟨0, 0, ""⟩ (by decide)
      (by decide)).1,
   (C10_title_checked_first 0 [] [0] [0] none none ⟨0, 0, ""⟩ (by decide)
      (by decide)).2.1⟩

/-- C6: once encoding has succeeded, a zero native status means success (the
simple box returns unit, the customizable box never returns an error), and
any nonzero status produces `SdlError` carrying the current global error
string, in both entry points, with exactly one foreign call and no retry. -/
theorem C6_status_decoding (flags : Nat) (buttons : List ButtonData)
    (title message : List Nat) (window : Option Nat)
    (scheme : Option MessageBoxColorScheme) (native : NativeResponse)
    (ht : 0 ∉ title) (hm : 0 ∉ message) (hb : ∀ b ∈ buttons, 0 ∉ b.text) :
    (native.status ≠ 0 →
      (show_simple_message_box flags title message window native).1 =
        Outcome.err (ShowMessageError.SdlError native.error) ∧
      (show_message_box flags buttons title message window scheme native).1 =
        Outcome.err (ShowMessageError.SdlError native.error)) ∧
    (native.status = 0 →
      (show_simple_message_box flags title message window native).1 =
        Outcome.ok () ∧
      ∀ e, (show_message_box flags buttons title message window scheme
        native).1 ≠ Outcome.err e) := by
  have hsimple : show_simple_message_box flags title message window native =
      (if native.status = 0 then (Outcome.ok (), some
        { flags := flags, title := title ++ [0], message := message ++ [0],
          window := window.getD 0 })
      else (Outcome.err (ShowMessageError.SdlError native.error), some
        { flags := flags, title := title ++ [0], message := message ++ [0],
          window := window.getD 0 })) := by
    unfold show_simple_message_box
    rw [CString.new_of_not_mem title ht, CString.new_of_not_mem message hm]
  rw [hsimple,
    show_message_box_eq_of_encodes flags buttons title message window scheme
      native ht hm hb]
  constructor
  · intro hs
    simp [hs]
  · intro hs
    refine ⟨by simp [hs], fun e => ?_⟩
    by_cases hid : native.button_id = -1
    · simp [hs, hid]
    · cases hfind : buttons.find? (fun b => b.button_id == native.button_id) with
      | none => simp [hs, hid, hfind]
      | some b => simp [hs, hid, hfind]

/-- C6 witness: a nonzero status yields `SdlError` with the ambient error
string in both entry points. -/
theorem C6_status_decoding_witness :
    (show_simple_message_box 0 [116] [109] none ⟨1, 0, "boom"⟩).1 =
      Outcome.err (ShowMessageError.SdlError "boom") ∧
    (show_message_box 0 [] [116] [109] none none ⟨1, 0, "boom"⟩).1 =
      Outcome.err (ShowMessageError.SdlError "boom") :=
  (C6_status_decoding 0 [] [116] [109] none none ⟨1, 0, "boom"⟩ (by decide)
    (by decide) (by decide)).1 (by decide)

/-- C8: for null-free text the encoding step round-trips the exact bytes with
a single terminator appended, and the buffers actually marshalled into the
foreign call (title, message, per-button texts) are exactly the input bytes
followed by the terminator. -/
theorem C8_roundtrip_encoding (flags : Nat) (buttons : List ButtonData)
    (title message : List Nat) (window : Option Nat)
    (scheme : Option MessageBoxColorScheme) (native : NativeResponse)
    (ht : 0 ∉ title) (hm : 0 ∉ message) (hb : ∀ b ∈ buttons, 0 ∉ b.text) :
    CString.new title = Except.ok (title ++ [0]) ∧
    CString.new message = Except.ok (message ++ [0]) ∧
    ∃ c : ForeignCall,
      (show_message_box flags buttons title message window scheme native).2 =
        some c ∧
      c.title = title ++ [0] ∧ c.message = message ++ [0] ∧
      c.buttons.map SDL_MessageBoxButtonData.text =
        buttons.map (fun b => b.text ++ [0]) := by
  refine ⟨CString.new_of_not_mem title ht, CString.new_of_not_mem message hm,
    the_call flags buttons title message window scheme,
    show_message_box_call_of_encodes flags buttons title message window scheme
      native ht hm hb, rfl, rfl, ?_⟩
  exact the_call_button_texts buttons

/-- C8 witness: concrete null-free title, message and button text round-trip
into the marshalled call with terminators appended. -/
theorem C8_roundtrip_encoding_witness :
    CString.new [116, 105] = Except.ok ([116, 105] ++ [0]) ∧
    CString.new [109] = Except.ok ([109] ++ [0]) ∧
    ∃ c : ForeignCall,
      (show_message_box 0 [⟨0, 1, [97, 98]⟩] [116, 105] [109] none none
        ⟨0, 1, ""⟩).2 = some c ∧
      c.title = [116, 105] ++ [0] ∧ c.message = [109] ++ [0] ∧
      c.buttons.map SDL_MessageBoxButtonData.text =
        ([⟨0, 1, [97, 98]⟩] : List ButtonData).map (fun b => b.text ++ [0]) :=
  C8_roundtrip_encoding 0 [⟨0, 1, [97, 98]⟩] [116, 105] [109] none none
    ⟨0, 1, ""⟩ (by decide) (by decide) (by decide)

/-- C4 counterexample: the claim that the functions never panic for any
status and output id the native layer may report is false: with no buttons,
status zero and a reported id of 5, the lookup finds nothing and
`button.unwrap()` panics. -/
theorem C4_panic_counterexample :
    (show_message_box 0 [] [] [] none none ⟨0, 5, ""⟩).1 = Outcome.panicked :=
  rfl

/-- C4 (amended): neither entry point panics provided that whenever the
native call succeeds with a reported id other than -1, some input button
carries that id; every failure path returns a structured
`ShowMessageError`. -/
theorem C4_no_panic_amended (flags : Nat) (buttons : List ButtonData)
    (title message : List Nat) (window : Option Nat)
    (scheme : Option MessageBoxColorScheme) (native : NativeResponse)
    (hmatch : native.status = 0 → native.button_id ≠ -1 →
      ∃ b ∈ buttons, b.button_id = native.button_id) :
    (show_simple_message_box flags title message window native).1 ≠
      Outcome.panicked ∧
    (show_message_box flags buttons title message window scheme native).1 ≠
      Outcome.panicked := by
  constructor
  · unfold show_simple_message_box
    by_cases ht : 0 ∈ title
    · rw [CString.new_of_mem title ht]
      simp
    · rw [CString.new_of_not_mem title ht]
      by_cases hm : 0 ∈ message
      · rw [CString.new_of_mem message hm]
        simp
      · rw [CString.new_of_not_mem message hm]
        by_cases hs : native.status = 0 <;> simp [hs]
  · unfold show_message_box
    by_cases ht : 0 ∈ title
    · rw [CString.new_of_mem title ht]
      simp
    · rw [CString.new_of_not_mem title ht]
      by_cases hm : 0 ∈ message
      · rw [CString.new_of_mem message hm]
        simp
      · rw [CString.new_of_not_mem message hm]
        cases henc : encode_button_texts buttons with
        | error e => simp
        | ok ts =>
          by_cases hs : native.status = 0
          · by_cases hid : native.button_id = -1
            · simp [hs, hid]
            · obtain ⟨b, hbmem, hbid⟩ := hmatch hs hid
              have hsome : (buttons.find?
                  (fun x => x.button_id == native.button_id)).isSome := by
                rw [List.find?_isSome]
                exact ⟨b, hbmem, by simp [hbid]⟩
              obtain ⟨c, hc⟩ := Option.isSome_iff_exists.mp hsome
              simp [hs, hid, hc]
          · simp [hs]

/-- C4 witness: with one button of id 3 and the oracle reporting id 3 on
success, neither entry point panics. -/
theorem C4_no_panic_amended_witness :
    (show_simple_message_box 0 [116] [109] none ⟨0, 3, ""⟩).1 ≠
      Outcome.panicked ∧
    (show_message_box 0 [⟨0, 3, [97]⟩] [116] [109] none none ⟨0, 3, ""⟩).1 ≠
      Outcome.panicked :=
  C4_no_panic_amended 0 [⟨0, 3, [97]⟩] [116] [109] none none ⟨0, 3, ""⟩
    (fun _ _ => ⟨⟨0, 3, [97]⟩, by decide, rfl⟩)

end Messagebox
